import Mathlib

/-!
Verification development for the SpecChecker-int interrupt-control
configuration subsystem.

The first half of this file is a shallow embedding of the catalog data
model and the operations found in `src/App.tsx` (`addISR`, `deleteISR`,
`addRule`, `deleteRule`, `renderRuleDescription`, `getLinkedIsrName`,
`handleExportFullData`, the JSON preview).  The Rule Compiler / Policy
Serializer described by the specification (trigger/effect construction,
hardware-id canonicalization, the policy document) is not present in the
`src/` sources; those definitions are modelled from the specification's
own words and are marked `Modelled from the spec:` in their doc comments.

The second half states and settles the claims.
-/

namespace SpecCheckerInt

/-- `mode` field of a control rule (`FUNCTION | REGISTER` in `src/App.tsx`). -/
inductive RuleMode where
  | FUNCTION
  | REGISTER
  deriving DecidableEq, Repr

/-- `pattern` field of a control rule. -/
inductive RulePattern where
  | SIMPLE
  | ARG_MATCH
  | ARG_AS_ID
  | WRITE_VAL
  | BITWISE_MASK
  | REG_BIT_MAPPING
  deriving DecidableEq, Repr

/-- `regBitMode` field (`FIXED | DYNAMIC`). -/
inductive RegBitMode where
  | FIXED
  | DYNAMIC
  deriving DecidableEq, Repr

/-- `regPolarity` field (`1_DISABLES | 0_DISABLES`). -/
inductive RegPolarity where
  | oneDisables
  | zeroDisables
  deriving DecidableEq, Repr

/-- `action` field (`ENABLE | DISABLE`). -/
inductive RuleAction where
  | ENABLE
  | DISABLE
  deriving DecidableEq, Repr

/-- `targetScope` field (`GLOBAL | SPECIFIC`). -/
inductive TargetScope where
  | GLOBAL
  | SPECIFIC
  deriving DecidableEq, Repr

/-- The `ISRConfig` interface of `src/App.tsx` (lines 59-65). -/
structure ISRConfig where
  id : String
  functionName : String
  priority : Int
  hardwareId : String
  description : Option String := none
  deriving DecidableEq, Repr

/-- The `ControlRule` interface of `src/App.tsx` (lines 68-91).  The optional
TypeScript fields are embedded as `Option`s. -/
structure ControlRule where
  id : String
  mode : RuleMode
  identifier : String
  pattern : RulePattern
  argIndex : Option Nat := none
  matchValue : Option String := none
  regBitMode : Option RegBitMode := none
  regBitIndex : Option Nat := none
  regPolarity : Option RegPolarity := none
  action : RuleAction
  targetScope : TargetScope
  linkedIsrId : Option String := none
  targetDetail : Option String := none
  deriving DecidableEq, Repr

/-- The configuration state held by the app: the `isrList` and
`controlRules` React state variables. -/
structure ConfigState where
  isrList : List ISRConfig
  controlRules : List ControlRule
  deriving DecidableEq, Repr

/-- JavaScript falsiness of an optional string: `undefined` and `""` are
falsy, every other string is truthy. -/
def optStrFalsy : Option String → Bool
  | none => true
  | some s => s = ""

/-- The form state `newISR : Partial<ISRConfig>`.  `functionName` may be
absent, the remaining fields are kept set by the form handlers. -/
structure NewISR where
  functionName : Option String := none
  priority : Int := 0
  hardwareId : String := ""
  description : Option String := none
  deriving DecidableEq, Repr

/-- The form state `newRule : Partial<ControlRule>`; `identifier` may be
absent or empty. -/
structure NewRule where
  mode : RuleMode
  identifier : Option String := none
  pattern : RulePattern
  argIndex : Option Nat := none
  matchValue : Option String := none
  regBitMode : Option RegBitMode := none
  regBitIndex : Option Nat := none
  regPolarity : Option RegPolarity := none
  action : RuleAction
  targetScope : TargetScope
  linkedIsrId : Option String := none
  targetDetail : Option String := none
  deriving DecidableEq, Repr

/-- `addISR` from `src/App.tsx` (lines 293-297): rejected when
`newISR.functionName` is falsy, otherwise the descriptor is appended with
`id = Date.now().toString()` (the millisecond clock is the `now`
parameter here). -/
def addISR (n : NewISR) (now : Nat) (s : ConfigState) : ConfigState :=
  match n.functionName with
  | none => s
  | some fn =>
    if fn = "" then s
    else { s with isrList := s.isrList ++
      [{ id := toString now, functionName := fn, priority := n.priority,
         hardwareId := n.hardwareId, description := n.description }] }

/-- `deleteISR` from `src/App.tsx` (lines 299-302): filter the ISR list by
id and clear `linkedIsrId` on every rule linked to the deleted id. -/
def deleteISR (isrId : String) (s : ConfigState) : ConfigState :=
  { isrList := s.isrList.filter (fun i => i.id ≠ isrId)
  , controlRules := s.controlRules.map (fun r =>
      if r.linkedIsrId = some isrId then { r with linkedIsrId := none } else r) }

/-- Rendering of an optional number inside a JS template literal
(`undefined` prints as the string "undefined"). -/
def showOptNat : Option Nat → String
  | some k => toString k
  | none => "undefined"

/-- Rendering of an optional string inside a JS template literal. -/
def showOptStr : Option String → String
  | some s => s
  | none => "undefined"

/-- The `finalDetail` computation inside `addRule` (`src/App.tsx` lines
307-319): when both `targetDetail` and `linkedIsrId` are falsy, an
automatic description is derived for `ARG_AS_ID` and `REG_BIT_MAPPING`
rules. -/
def computeFinalDetail (n : NewRule) : Option String :=
  if optStrFalsy n.targetDetail && optStrFalsy n.linkedIsrId then
    if n.pattern = RulePattern.ARG_AS_ID then some "Dynamic (Matches HW ID)"
    else if n.pattern = RulePattern.REG_BIT_MAPPING then
      if n.regBitMode = some RegBitMode.DYNAMIC then
        some ("Bit N (1 << N) [" ++
          (if n.regPolarity = some RegPolarity.oneDisables then "Active Low" else "Active High")
          ++ "]")
      else
        some ("Bit " ++ showOptNat n.regBitIndex ++ " (" ++
          (if n.regPolarity = some RegPolarity.oneDisables then "1=Off" else "0=Off") ++ ")")
    else n.targetDetail
  else n.targetDetail

/-- `addRule` from `src/App.tsx` (lines 304-337): rejected when
`newRule.identifier` is falsy; otherwise the rule is appended with
`id = Date.now().toString()` and the computed `targetDetail`. -/
def addRule (n : NewRule) (now : Nat) (s : ConfigState) : ConfigState :=
  match n.identifier with
  | none => s
  | some ident =>
    if ident = "" then s
    else { s with controlRules := s.controlRules ++
      [{ id := toString now, mode := n.mode, identifier := ident,
         pattern := n.pattern, argIndex := n.argIndex, matchValue := n.matchValue,
         regBitMode := n.regBitMode, regBitIndex := n.regBitIndex,
         regPolarity := n.regPolarity, action := n.action,
         targetScope := n.targetScope, linkedIsrId := n.linkedIsrId,
         targetDetail := computeFinalDetail n }] }

/-- `deleteRule` from `src/App.tsx` (lines 339-341): filter the rule list
by id; the ISR list is not touched. -/
def deleteRule (ruleId : String) (s : ConfigState) : ConfigState :=
  { s with controlRules := s.controlRules.filter (fun r => r.id ≠ ruleId) }

/-- Result of `renderRuleDescription` (`src/App.tsx` lines 472-491): either
a plain string, the JSX span pair for `REG_BIT_MAPPING` (index badge plus
logic text), or the raw pattern name fallback. -/
inductive RuleDescr where
  | text (s : String)
  | bitSpan (ix : String) (logic : String)
  | patternName (p : RulePattern)
  deriving DecidableEq, Repr

/-- `renderRuleDescription` from `src/App.tsx` (lines 472-491). -/
def renderRuleDescription (r : ControlRule) : RuleDescr :=
  if r.mode = RuleMode.FUNCTION then
    if r.pattern = RulePattern.SIMPLE then
      RuleDescr.text ("调用 " ++ r.identifier ++ "()")
    else if r.pattern = RulePattern.ARG_MATCH then
      RuleDescr.text ("当参数[" ++ showOptNat r.argIndex ++ "] == " ++ showOptStr r.matchValue)
    else if r.pattern = RulePattern.ARG_AS_ID then
      RuleDescr.text ("参数[" ++ showOptNat r.argIndex ++ "] 对应 ISR HW ID")
    else RuleDescr.patternName r.pattern
  else
    if r.pattern = RulePattern.REG_BIT_MAPPING then
      RuleDescr.bitSpan
        (if r.regBitMode = some RegBitMode.DYNAMIC then "Dyn (1 << N)"
         else "Bit " ++ showOptNat r.regBitIndex)
        (if r.regPolarity = some RegPolarity.oneDisables then "1=Disable" else "1=Enable")
    else if r.pattern = RulePattern.WRITE_VAL then
      RuleDescr.text ("写入值 == " ++ showOptStr r.matchValue)
    else RuleDescr.patternName r.pattern

/-- Result of `getLinkedIsrName` (`src/App.tsx` lines 493-507): a plain
string, the blue linked-ISR span carrying the ISR's function name, or the
red span reading "Unknown ISR". -/
inductive TargetDisplay where
  | plain (s : String)
  | linkedName (functionName : String)
  | unknownIsr
  deriving DecidableEq, Repr

/-- `rule.targetDetail || 'Specific'` (JS falsy fallback). -/
def orSpecific : Option String → String
  | some t => if t = "" then "Specific" else t
  | none => "Specific"

/-- `getLinkedIsrName` from `src/App.tsx` (lines 493-507). -/
def getLinkedIsrName (isrList : List ISRConfig) (r : ControlRule) : TargetDisplay :=
  if r.pattern = RulePattern.ARG_AS_ID then TargetDisplay.plain "Dynamic (By HW ID)"
  else if r.mode = RuleMode.REGISTER ∧ r.regBitMode = some RegBitMode.DYNAMIC then
    TargetDisplay.plain "Dynamic (By Bit Index)"
  else if r.targetScope = TargetScope.GLOBAL then TargetDisplay.plain "Global"
  else if optStrFalsy r.linkedIsrId then TargetDisplay.plain (orSpecific r.targetDetail)
  else
    match r.linkedIsrId with
    | some lid =>
      match isrList.find? (fun i => i.id = lid) with
      | some isr => TargetDisplay.linkedName isr.functionName
      | none => TargetDisplay.unknownIsr
    | none => TargetDisplay.plain (orSpecific r.targetDetail)

/-- The `config` object assembled by `handleExportFullData`
(`src/App.tsx` lines 385-392) and the JSON preview (lines 1221-1228):
both project the two catalogs through unchanged. -/
structure ExportedConfig where
  isrList : List ISRConfig
  controlRules : List ControlRule
  deriving DecidableEq, Repr

/-- The catalog projection shared by `handleExportFullData` and the JSON
preview in `src/App.tsx`. -/
def exportConfig (s : ConfigState) : ExportedConfig :=
  { isrList := s.isrList, controlRules := s.controlRules }

/-- The seed `isrList` state of `src/App.tsx` (lines 161-164). -/
def seedIsrList : List ISRConfig :=
  [ { id := "1", functionName := "SysTick_Handler", priority := 15,
      hardwareId := "-1", description := some "System Tick Timer" }
  , { id := "2", functionName := "USART1_IRQHandler", priority := 1,
      hardwareId := "37", description := some "High priority serial comms" } ]

/-- The seed `controlRules` state of `src/App.tsx` (lines 166-177). -/
def seedRules : List ControlRule :=
  [ { id := "1", mode := RuleMode.FUNCTION, identifier := "disableisr",
      pattern := RulePattern.ARG_MATCH, argIndex := some 0, matchValue := some "-1",
      action := RuleAction.DISABLE, targetScope := TargetScope.GLOBAL }
  , { id := "5", mode := RuleMode.REGISTER, identifier := "IER",
      pattern := RulePattern.REG_BIT_MAPPING, regBitMode := some RegBitMode.DYNAMIC,
      regPolarity := some RegPolarity.zeroDisables, action := RuleAction.ENABLE,
      targetScope := TargetScope.SPECIFIC, targetDetail := some "1 << N (Dynamic)" } ]

/-- The built-in seed state of both catalogs. -/
def seedState : ConfigState := { isrList := seedIsrList, controlRules := seedRules }

/-! ## The Rule Compiler and Policy Serializer, modelled from the spec

The trigger/effect construction and the policy document of spec §4.1,
§4.3 and §6 have no implementation under `src/`; the definitions below
are modelled from the specification's words. -/

/-- A JSON scalar: the canonicalized hardware id is either a number or a
string token. -/
inductive JVal where
  | num (n : Int)
  | str (s : String)
  deriving DecidableEq, Repr

/-- Value of a decimal digit character (code points 48-57), `none` for any
other character. -/
def digitVal (c : Char) : Option Nat :=
  let v := c.toNat
  if 48 ≤ v ∧ v ≤ 57 then some (v - 48) else none

/-- Accumulating decimal parse of a character list; fails on the first
non-digit character. -/
def parseNatAux : List Char → Nat → Option Nat
  | [], acc => some acc
  | c :: cs, acc =>
    match digitVal c with
    | some d => parseNatAux cs (10 * acc + d)
    | none => none

/-- Modelled from the spec: the "integer parse" attempted on a hardware-id
token (§3, §4.1) — an optional leading minus sign followed by at least one
decimal digit; symbolic tokens, hex literals as text included (§7), do
not parse. -/
def parseIntToken (s : String) : Option Int :=
  match s.data with
  | [] => none
  | '-' :: [] => none
  | '-' :: cs => (parseNatAux cs 0).map (fun n => -(n : Int))
  | cs => (parseNatAux cs 0).map (fun n => (n : Int))

/-- Modelled from the spec: hardware-id canonicalization (§3, §4.1) —
"attempt integer parse; on success use the integer, otherwise keep the
original string token." -/
def canonicalizeToken (s : String) : JVal :=
  match parseIntToken s with
  | some n => JVal.num n
  | none => JVal.str s

/-- The `bit_index` slot of a `bit_logic` match payload: the stored
`regBitIndex` for `FIXED` rules, or the token `"dynamic_shift"` for
`DYNAMIC` rules. -/
inductive BitIndex where
  | idx (n : Option Nat)
  | token (s : String)
  deriving DecidableEq, Repr

/-- Modelled from the spec: the `trigger.match` payloads of the §4.1
pattern table. -/
inductive MatchPayload where
  | always
  | argEq (index : Option Nat) (value : Option String)
  | argIsId (index : Option Nat)
  | valEq (value : Option String)
  | maskEq (value : Option String)
  | bitLogic (bitIndex : BitIndex) (disableValue : Nat)
  deriving DecidableEq, Repr

/-- `trigger.type`: `call` for `FUNCTION_CALL` rules, `write` for
`REGISTER_WRITE` rules. -/
inductive TriggerType where
  | call
  | write
  deriving DecidableEq, Repr

/-- Modelled from the spec: the `trigger` object of §4.1 (the `match`
field is named `matchPayload`, `match` being reserved in Lean). -/
structure Trigger where
  type : TriggerType
  symbol : String
  matchPayload : MatchPayload
  deriving DecidableEq, Repr

/-- Modelled from the spec: trigger construction (§4.1). -/
def compileTrigger (r : ControlRule) : Trigger :=
  { type := if r.mode = RuleMode.FUNCTION then TriggerType.call else TriggerType.write
  , symbol := r.identifier
  , matchPayload :=
      match r.pattern with
      | RulePattern.SIMPLE => MatchPayload.always
      | RulePattern.ARG_MATCH => MatchPayload.argEq r.argIndex r.matchValue
      | RulePattern.ARG_AS_ID => MatchPayload.argIsId r.argIndex
      | RulePattern.WRITE_VAL => MatchPayload.valEq r.matchValue
      | RulePattern.BITWISE_MASK => MatchPayload.maskEq r.matchValue
      | RulePattern.REG_BIT_MAPPING =>
          MatchPayload.bitLogic
            (if r.regBitMode = some RegBitMode.DYNAMIC then BitIndex.token "dynamic_shift"
             else BitIndex.idx r.regBitIndex)
            (if r.regPolarity = some RegPolarity.oneDisables then 1 else 0) }

/-- Modelled from the spec: the dynamic-scope override of §3 — the
effective scope is `dynamic` when `pattern = ARG_AS_ID`, or when
`mode = REGISTER_WRITE` and `regBitMode = DYNAMIC`. -/
def dynamicOverride (r : ControlRule) : Bool :=
  if r.pattern = RulePattern.ARG_AS_ID then true
  else if r.mode = RuleMode.REGISTER ∧ r.regBitMode = some RegBitMode.DYNAMIC then true
  else false

/-- `effect.action` is the rule's `action` lower-cased. -/
def lowerAction : RuleAction → String
  | RuleAction.ENABLE => "enable"
  | RuleAction.DISABLE => "disable"

/-- `targetScope` lower-cased. -/
def lowerScope : TargetScope → String
  | TargetScope.GLOBAL => "global"
  | TargetScope.SPECIFIC => "specific"

/-- Modelled from the spec: the `effect` object of §4.1/§6
(`target_hw_id` is optional; `none` embeds its omission). -/
structure Effect where
  action : String
  scope : String
  target_hw_id : Option JVal
  deriving DecidableEq, Repr

/-- Modelled from the spec: effect construction (§4.1) — scope is
`"dynamic"` under the override, otherwise the lower-cased `targetScope`;
a `specific` scope resolves `linkedIsrId` against the ISR catalog and
carries the found ISR's canonicalized `hardwareId`, or omits
`target_hw_id` when the lookup fails. -/
def compileEffect (isrList : List ISRConfig) (r : ControlRule) : Effect :=
  let scope := if dynamicOverride r then "dynamic" else lowerScope r.targetScope
  { action := lowerAction r.action
  , scope := scope
  , target_hw_id :=
      if scope = "specific" then
        match r.linkedIsrId with
        | some lid =>
          match isrList.find? (fun i => i.id = lid) with
          | some isr => some (canonicalizeToken isr.hardwareId)
          | none => none
        | none => none
      else none }

/-- A compiled `(trigger, effect)` pair. -/
structure CompiledRule where
  trigger : Trigger
  effect : Effect
  deriving DecidableEq, Repr

/-- Modelled from the spec: the Rule Compiler maps one `ControlRule` plus
the current ISR catalog to a `(trigger, effect)` pair (§4.1). -/
def compileRule (isrList : List ISRConfig) (r : ControlRule) : CompiledRule :=
  { trigger := compileTrigger r, effect := compileEffect isrList r }

/-- An `interrupt_vectors` entry (§6): `{ symbol, hw_id, priority }`. -/
structure VectorEntry where
  symbol : String
  hw_id : JVal
  priority : Int
  deriving DecidableEq, Repr

/-- Modelled from the spec: the 1:1 projection of an ISR descriptor into
an `interrupt_vectors` entry, its `hardwareId` canonicalized (§3, §6). -/
def projectISR (i : ISRConfig) : VectorEntry :=
  { symbol := i.functionName, hw_id := canonicalizeToken i.hardwareId, priority := i.priority }

/-- The `meta` header of the policy document (§6). -/
structure PolicyMeta where
  project : String
  version : String
  note : Option String := none
  deriving DecidableEq, Repr

/-- Modelled from the spec: the policy document shape of §6 —
`{ meta, interrupt_vectors, control_rules }`. -/
structure PolicyDocument where
  meta : PolicyMeta
  interrupt_vectors : List VectorEntry
  control_rules : List CompiledRule
  deriving DecidableEq, Repr

/-- Modelled from the spec: the Policy Serializer (§4.3, §6) — wrap the
compiled, order-preserving rule list and the projected ISR catalog under
a metadata header. -/
def serializePolicy (m : PolicyMeta) (s : ConfigState) : PolicyDocument :=
  { meta := m
  , interrupt_vectors := s.isrList.map projectISR
  , control_rules := s.controlRules.map (compileRule s.isrList) }

/-- The `disable_value` slot of a compiled match payload, when it is a
`bit_logic` payload. -/
def MatchPayload.disableValueOf : MatchPayload → Option Nat
  | MatchPayload.bitLogic _ d => some d
  | _ => none

/-- The `bit_index` slot of a compiled match payload, when it is a
`bit_logic` payload. -/
def MatchPayload.bitIndexOf : MatchPayload → Option BitIndex
  | MatchPayload.bitLogic b _ => some b
  | _ => none

/-- The logic text of a rendered description, when it is the
`REG_BIT_MAPPING` span. -/
def RuleDescr.logicOf : RuleDescr → Option String
  | RuleDescr.bitSpan _ l => some l
  | _ => none

/-- The index badge of a rendered description, when it is the
`REG_BIT_MAPPING` span. -/
def RuleDescr.ixOf : RuleDescr → Option String
  | RuleDescr.bitSpan ix _ => some ix
  | _ => none

/-- The first compilation scenario of spec §8: a `SIMPLE` call rule linked
to the USART ISR (id "2"). -/
def uartDisableRule : ControlRule :=
  { id := "r1", mode := RuleMode.FUNCTION, identifier := "HAL_UART_DisableIT",
    pattern := RulePattern.SIMPLE, action := RuleAction.DISABLE,
    targetScope := TargetScope.SPECIFIC, linkedIsrId := some "2" }

/-- A `SPECIFIC` rule whose link has been cleared (`linkedIsrId` absent),
e.g. after the ISR it pointed at was deleted. -/
def clearedLinkRule : ControlRule :=
  { id := "9", mode := RuleMode.FUNCTION, identifier := "disable_uart",
    pattern := RulePattern.SIMPLE, action := RuleAction.DISABLE,
    targetScope := TargetScope.SPECIFIC }

/-- A `SPECIFIC` rule with a dangling link: `linkedIsrId = "99"` matches no
ISR of the seed catalog. -/
def danglingLinkRule : ControlRule :=
  { id := "8", mode := RuleMode.FUNCTION, identifier := "disable_uart",
    pattern := RulePattern.SIMPLE, action := RuleAction.DISABLE,
    targetScope := TargetScope.SPECIFIC, linkedIsrId := some "99" }

/-- A well-formed sample rule for the creation interface. -/
def sampleNewRule : NewRule :=
  { mode := RuleMode.FUNCTION, identifier := some "disable_irq",
    pattern := RulePattern.SIMPLE, action := RuleAction.DISABLE,
    targetScope := TargetScope.GLOBAL }

/-- An ISR creation request used by the reachability traces. -/
def timerAddISR : NewISR := { functionName := some "TIM2_IRQHandler" }

/-- Id projection of the ISR catalog. -/
def isrIds (s : ConfigState) : List String := s.isrList.map ISRConfig.id

/-- Id projection of the rule catalog. -/
def ruleIds (s : ConfigState) : List String := s.controlRules.map ControlRule.id

/-- A user-level catalog mutation (§6): add-one or delete-by-id on either
catalog; `now` is the `Date.now()` millisecond timestamp read when an add
is performed. -/
inductive CatalogOp where
  | opAddISR (n : NewISR) (now : Nat)
  | opDeleteISR (id : String)
  | opAddRule (n : NewRule) (now : Nat)
  | opDeleteRule (id : String)
  deriving DecidableEq, Repr

/-- Apply one catalog operation. -/
def applyOp (s : ConfigState) : CatalogOp → ConfigState
  | CatalogOp.opAddISR n now => addISR n now s
  | CatalogOp.opDeleteISR i => deleteISR i s
  | CatalogOp.opAddRule n now => addRule n now s
  | CatalogOp.opDeleteRule i => deleteRule i s

/-- Run a sequence of catalog operations from a state. -/
def runOps (s : ConfigState) : List CatalogOp → ConfigState
  | [] => s
  | op :: ops => runOps (applyOp s op) ops

/-- The timestamp string an add operation would use as the fresh id is not
an id already present in the catalog the operation extends. -/
def opFresh (s : ConfigState) : CatalogOp → Bool
  | CatalogOp.opAddISR _ now => decide (toString now ∉ isrIds s)
  | CatalogOp.opAddRule _ now => decide (toString now ∉ ruleIds s)
  | _ => true

/-- Every add operation of the trace is performed at a timestamp whose
string is fresh for the catalog it extends at that moment. -/
def freshTrace (s : ConfigState) : List CatalogOp → Bool
  | [] => true
  | op :: ops => opFresh s op && freshTrace (applyOp s op) ops

/-! ## Claims -/

lemma filter_ne_id_eq_erase (l : List ISRConfig) (x : ISRConfig)
    (hx : x ∈ l) (hu : (l.map ISRConfig.id).Nodup) :
    l.filter (fun i => i.id ≠ x.id) = l.erase x := by
  have hnd : l.Nodup := hu.of_map _
  have hinj : ∀ y ∈ l, ∀ z ∈ l, y.id = z.id → y = z :=
    (List.nodup_map_iff_inj_on hnd).mp hu
  have hpred : ∀ y ∈ l, (decide (y.id ≠ x.id)) = (decide (y ≠ x)) := by
    intro y hy
    by_cases h : y = x
    · subst h; simp
    · have : y.id ≠ x.id := fun hid => h (hinj y hy x hx hid)
      simp [h, this]
  rw [List.filter_congr hpred, hnd.erase_eq_filter]
  apply List.filter_congr
  intro y hy
  simp [bne, instBEqOfDecidableEq, Bool.not_not]

/-- C1: deleting ISR `X` removes exactly `X` from the ISR catalog and, in the
same operation, clears `linkedIsrId` on every rule previously linked to `X`;
no rule is deleted or added, rules not linked to `X` are unchanged, and an
affected rule changes in no field other than `linkedIsrId`. -/
theorem deleteISR_referential_integrity (s : ConfigState) (x : ISRConfig)
    (hx : x ∈ s.isrList) (hu : (s.isrList.map ISRConfig.id).Nodup) :
    (deleteISR x.id s).isrList = s.isrList.erase x ∧
    (deleteISR x.id s).controlRules.length = s.controlRules.length ∧
    ∀ k (hk : k < s.controlRules.length) (hk2 : k < (deleteISR x.id s).controlRules.length),
      (deleteISR x.id s).controlRules.get ⟨k, hk2⟩ =
        (if (s.controlRules.get ⟨k, hk⟩).linkedIsrId = some x.id
         then { s.controlRules.get ⟨k, hk⟩ with linkedIsrId := none }
         else s.controlRules.get ⟨k, hk⟩) := by
  refine ⟨filter_ne_id_eq_erase s.isrList x hx hu, by simp [deleteISR], ?_⟩
  intro k hk hk2
  simp [deleteISR, List.get_eq_getElem, List.getElem_map]

/-- Witness for C1 at the seed state: deleting the USART ISR (id "2"). -/
theorem deleteISR_referential_integrity_witness :
    (deleteISR (seedIsrList.get ⟨1, by decide⟩).id seedState).isrList =
      seedState.isrList.erase (seedIsrList.get ⟨1, by decide⟩) :=
  (deleteISR_referential_integrity seedState (seedIsrList.get ⟨1, by decide⟩)
    (by decide) (by decide)).1

lemma dynamicOverride_true_of (r : ControlRule)
    (h : r.pattern = RulePattern.ARG_AS_ID ∨
         (r.mode = RuleMode.REGISTER ∧ r.regBitMode = some RegBitMode.DYNAMIC)) :
    dynamicOverride r = true := by
  rcases h with h | ⟨h1, h2⟩
  · simp [dynamicOverride, h]
  · by_cases hp : r.pattern = RulePattern.ARG_AS_ID <;> simp [dynamicOverride, hp, h1, h2]

/-- C2: for a rule with `pattern = ARG_AS_ID`, or with `mode = REGISTER` and
`regBitMode = DYNAMIC`, the compiled `effect.scope` is `"dynamic"` and the
displayed target of the rule is one of the two dynamic markers, irrespective
of the stored `targetScope` and `linkedIsrId`. -/
theorem dynamic_scope_override_compiles_dynamic (isrList : List ISRConfig) (r : ControlRule)
    (h : r.pattern = RulePattern.ARG_AS_ID ∨
         (r.mode = RuleMode.REGISTER ∧ r.regBitMode = some RegBitMode.DYNAMIC)) :
    (compileEffect isrList r).scope = "dynamic" ∧
    (getLinkedIsrName isrList r = TargetDisplay.plain "Dynamic (By HW ID)" ∨
     getLinkedIsrName isrList r = TargetDisplay.plain "Dynamic (By Bit Index)") := by
  have hd := dynamicOverride_true_of r h
  constructor
  · simp [compileEffect, hd]
  · by_cases hp : r.pattern = RulePattern.ARG_AS_ID
    · left; simp [getLinkedIsrName, hp]
    · rcases h with h | ⟨h1, h2⟩
      · exact absurd h hp
      · right; simp [getLinkedIsrName, hp, h1, h2]

/-- Witness for C2 at the seed register rule (id "5", `REG_BIT_MAPPING`,
`regBitMode = DYNAMIC`, stored `targetScope = SPECIFIC`). -/
theorem dynamic_scope_override_witness :
    (compileEffect seedIsrList (seedRules.get ⟨1, by decide⟩)).scope = "dynamic" ∧
    (getLinkedIsrName seedIsrList (seedRules.get ⟨1, by decide⟩) =
        TargetDisplay.plain "Dynamic (By HW ID)" ∨
     getLinkedIsrName seedIsrList (seedRules.get ⟨1, by decide⟩) =
        TargetDisplay.plain "Dynamic (By Bit Index)") :=
  dynamic_scope_override_compiles_dynamic seedIsrList (seedRules.get ⟨1, by decide⟩)
    (Or.inr ⟨by decide, by decide⟩)

/-- C3: the serialized output carries `hardwareId` canonicalized — a token
that parses as an integer becomes that integer ("37" the number 37, "-1" the
number -1), a non-parsing token ("EXTI_VECTOR") is kept as the original
string — and a resolved `SPECIFIC` rule gets the same canonicalization of
the linked ISR `hardwareId` as its `effect.target_hw_id`. -/
theorem hardwareId_canonicalization (isrList : List ISRConfig) (i : ISRConfig) (r : ControlRule)
    (hlink : r.linkedIsrId = some i.id)
    (hfind : isrList.find? (fun j => j.id = i.id) = some i)
    (hnd : dynamicOverride r = false)
    (hspec : r.targetScope = TargetScope.SPECIFIC) :
    ((∀ n : Int, parseIntToken i.hardwareId = some n → (projectISR i).hw_id = JVal.num n) ∧
     (parseIntToken i.hardwareId = none → (projectISR i).hw_id = JVal.str i.hardwareId)) ∧
    canonicalizeToken "37" = JVal.num 37 ∧
    canonicalizeToken "-1" = JVal.num (-1) ∧
    canonicalizeToken "EXTI_VECTOR" = JVal.str "EXTI_VECTOR" ∧
    (compileEffect isrList r).target_hw_id = some (canonicalizeToken i.hardwareId) := by
  refine ⟨⟨?_, ?_⟩, by decide, by decide, by decide, ?_⟩
  · intro n hn; simp [projectISR, canonicalizeToken, hn]
  · intro hn; simp [projectISR, canonicalizeToken, hn]
  · simp [compileEffect, hnd, hspec, lowerScope, hlink, hfind]

/-- Witness for C3: the first spec §8 scenario — `uartDisableRule` resolves
against the seed catalog to the USART ISR whose `hardwareId` "37"
canonicalizes to the number 37. -/
theorem hardwareId_canonicalization_witness :
    (compileEffect seedIsrList uartDisableRule).target_hw_id = some (JVal.num 37) := by
  have h := hardwareId_canonicalization seedIsrList (seedIsrList.get ⟨1, by decide⟩)
    uartDisableRule (by decide) (by decide) (by decide) (by decide)
  exact h.2.2.2.2.trans (by decide)

/-- C4: for a `REG_BIT_MAPPING` register rule, the compiled `bit_logic`
match payload has `disable_value = 1` under `1_DISABLES` and `0` under
`0_DISABLES`, and `bit_index = regBitIndex` under `FIXED` or the token
`"dynamic_shift"` under `DYNAMIC`; the human-readable description reflects
the same polarity ("1=Disable" vs "1=Enable") and the same
fixed-index-or-dynamic marker. -/
theorem reg_bit_mapping_payload (r : ControlRule)
    (hp : r.pattern = RulePattern.REG_BIT_MAPPING) (hm : r.mode = RuleMode.REGISTER) :
    ((r.regPolarity = some RegPolarity.oneDisables →
        (compileTrigger r).matchPayload.disableValueOf = some 1 ∧
        (renderRuleDescription r).logicOf = some "1=Disable") ∧
     (r.regPolarity = some RegPolarity.zeroDisables →
        (compileTrigger r).matchPayload.disableValueOf = some 0 ∧
        (renderRuleDescription r).logicOf = some "1=Enable") ∧
     (∀ k : Nat, r.regBitMode = some RegBitMode.FIXED → r.regBitIndex = some k →
        (compileTrigger r).matchPayload.bitIndexOf = some (BitIndex.idx (some k)) ∧
        (renderRuleDescription r).ixOf = some ("Bit " ++ toString k)) ∧
     (r.regBitMode = some RegBitMode.DYNAMIC →
        (compileTrigger r).matchPayload.bitIndexOf = some (BitIndex.token "dynamic_shift") ∧
        (renderRuleDescription r).ixOf = some "Dyn (1 << N)")) := by
  refine ⟨fun hpol => ?_, fun hpol => ?_, fun k hbm hbi => ?_, fun hbm => ?_⟩
  · exact ⟨by simp [compileTrigger, hp, hpol, MatchPayload.disableValueOf],
      by simp [renderRuleDescription, hm, hp, hpol, RuleDescr.logicOf]⟩
  · exact ⟨by simp [compileTrigger, hp, hpol, MatchPayload.disableValueOf],
      by simp [renderRuleDescription, hm, hp, hpol, RuleDescr.logicOf]⟩
  · exact ⟨by simp [compileTrigger, hp, hbm, hbi, MatchPayload.bitIndexOf],
      by simp [renderRuleDescription, hm, hp, hbm, hbi, RuleDescr.ixOf, showOptNat]⟩
  · exact ⟨by simp [compileTrigger, hp, hbm, MatchPayload.bitIndexOf],
      by simp [renderRuleDescription, hm, hp, hbm, RuleDescr.ixOf]⟩

/-- Witness for C4 at the seed register rule (id "5": `DYNAMIC`,
`0_DISABLES`). -/
theorem reg_bit_mapping_payload_witness :
    (compileTrigger (seedRules.get ⟨1, by decide⟩)).matchPayload.disableValueOf = some 0 ∧
    (renderRuleDescription (seedRules.get ⟨1, by decide⟩)).logicOf = some "1=Enable" ∧
    (compileTrigger (seedRules.get ⟨1, by decide⟩)).matchPayload.bitIndexOf =
      some (BitIndex.token "dynamic_shift") ∧
    (renderRuleDescription (seedRules.get ⟨1, by decide⟩)).ixOf = some "Dyn (1 << N)" := by
  have h := reg_bit_mapping_payload (seedRules.get ⟨1, by decide⟩) (by decide) (by decide)
  exact ⟨(h.2.1 (by decide)).1, (h.2.1 (by decide)).2,
    (h.2.2.2 (by decide)).1, (h.2.2.2 (by decide)).2⟩

/-- C5: the serialized policy document is `{ meta, interrupt_vectors,
control_rules }`, with `interrupt_vectors` the ISR catalog projected 1:1 in
catalog order and `control_rules` the compiled pairs in exactly the rule
catalog insertion order — no reordering, no deduplication. -/
theorem policy_document_shape_and_order (m : PolicyMeta) (s : ConfigState) :
    (serializePolicy m s).meta = m ∧
    (serializePolicy m s).interrupt_vectors.length = s.isrList.length ∧
    (∀ k (hk : k < s.isrList.length) (hk2 : k < (serializePolicy m s).interrupt_vectors.length),
       (serializePolicy m s).interrupt_vectors.get ⟨k, hk2⟩ =
         projectISR (s.isrList.get ⟨k, hk⟩)) ∧
    (serializePolicy m s).control_rules.length = s.controlRules.length ∧
    (∀ k (hk : k < s.controlRules.length) (hk2 : k < (serializePolicy m s).control_rules.length),
       (serializePolicy m s).control_rules.get ⟨k, hk2⟩ =
         compileRule s.isrList (s.controlRules.get ⟨k, hk⟩)) := by
  refine ⟨rfl, by simp [serializePolicy], ?_, by simp [serializePolicy], ?_⟩ <;>
    intro k hk hk2 <;> simp [serializePolicy, List.get_eq_getElem, List.getElem_map]

/-- Witness for C5 at the seed state: the second compiled rule of the
document is the compilation of the second catalog rule. -/
theorem policy_document_shape_and_order_witness :
    (serializePolicy { project := "SpecChecker-Int", version := "1.0" }
        seedState).control_rules.get ⟨1, by decide⟩ =
      compileRule seedIsrList (seedRules.get ⟨1, by decide⟩) := by
  have h := policy_document_shape_and_order
    { project := "SpecChecker-Int", version := "1.0" } seedState
  exact h.2.2.2.2 1 (by decide) (by decide)

/-- C6 counterexample: a `SPECIFIC` rule with a cleared link — whose
`linkedIsrId` therefore matches no ISR of the seed catalog — is surfaced as
"Specific" (the `targetDetail` fallback), not as the red "Unknown ISR"
marker; the "unknown ISR" clause of the claim fails for cleared links. -/
theorem cleared_link_displayed_as_specific :
    clearedLinkRule.targetScope = TargetScope.SPECIFIC ∧
    clearedLinkRule.linkedIsrId = none ∧
    (∀ i ∈ seedIsrList, clearedLinkRule.linkedIsrId ≠ some i.id) ∧
    getLinkedIsrName seedIsrList clearedLinkRule ≠ TargetDisplay.unknownIsr ∧
    getLinkedIsrName seedIsrList clearedLinkRule = TargetDisplay.plain "Specific" := by
  decide

lemma dynamicOverride_eq_false_iff (r : ControlRule) :
    dynamicOverride r = false ↔
      r.pattern ≠ RulePattern.ARG_AS_ID ∧
      ¬ (r.mode = RuleMode.REGISTER ∧ r.regBitMode = some RegBitMode.DYNAMIC) := by
  by_cases h1 : r.pattern = RulePattern.ARG_AS_ID <;>
    by_cases h2 : r.mode = RuleMode.REGISTER ∧ r.regBitMode = some RegBitMode.DYNAMIC <;>
    simp [dynamicOverride, h1, h2]

/-- C6 (amended): an unresolvable `SPECIFIC` link never fails compilation —
the rule is still emitted with scope `"specific"` and `target_hw_id`
omitted; a dangling link (a non-empty `linkedIsrId` matching no catalog ISR)
is surfaced as "Unknown ISR", while a cleared link (absent or empty
`linkedIsrId`) is surfaced via the `targetDetail` fallback; the compiler is
total and emits every rule. -/
theorem unresolved_specific_total (isrList : List ISRConfig) (r : ControlRule)
    (hspec : r.targetScope = TargetScope.SPECIFIC)
    (hnd : dynamicOverride r = false)
    (hdangling : ∀ lid, r.linkedIsrId = some lid →
        isrList.find? (fun i => i.id = lid) = none) :
    (compileEffect isrList r).scope = "specific" ∧
    (compileEffect isrList r).target_hw_id = none ∧
    (∀ lid, r.linkedIsrId = some lid → lid ≠ "" →
        getLinkedIsrName isrList r = TargetDisplay.unknownIsr) ∧
    ((r.linkedIsrId = none ∨ r.linkedIsrId = some "") →
        getLinkedIsrName isrList r = TargetDisplay.plain (orSpecific r.targetDetail)) ∧
    (∀ (m : PolicyMeta) (rules : List ControlRule),
        (serializePolicy m { isrList := isrList, controlRules := rules }).control_rules.length
          = rules.length ∧
        (r ∈ rules → compileRule isrList r ∈
          (serializePolicy m { isrList := isrList, controlRules := rules }).control_rules)) := by
  obtain ⟨hp, hrd⟩ := (dynamicOverride_eq_false_iff r).mp hnd
  have hscope : (compileEffect isrList r).scope = "specific" := by
    simp [compileEffect, hnd, hspec, lowerScope]
  refine ⟨hscope, ?_, ?_, ?_, ?_⟩
  · cases hl : r.linkedIsrId with
    | none => simp [compileEffect, hnd, hspec, lowerScope, hl]
    | some lid => simp [compileEffect, hnd, hspec, lowerScope, hl, hdangling lid hl]
  · intro lid hl hne
    simp [getLinkedIsrName, hp, hrd, hspec, hl, optStrFalsy, hne, hdangling lid hl]
  · intro hcl
    rcases hcl with hl | hl <;> simp [getLinkedIsrName, hp, hrd, hspec, hl, optStrFalsy]
  · intro m rules
    constructor
    · simp [serializePolicy]
    · intro hr
      simp only [serializePolicy]
      exact List.mem_map_of_mem _ hr

/-- Witness for C6 (amended) at the dangling rule against the seed
catalog. -/
theorem unresolved_specific_total_witness :
    (compileEffect seedIsrList danglingLinkRule).scope = "specific" ∧
    (compileEffect seedIsrList danglingLinkRule).target_hw_id = none ∧
    getLinkedIsrName seedIsrList danglingLinkRule = TargetDisplay.unknownIsr := by
  have hd : ∀ lid, danglingLinkRule.linkedIsrId = some lid →
      seedIsrList.find? (fun i => i.id = lid) = none := by
    intro lid hl
    have h99 : lid = "99" := by
      have := hl
      simp [danglingLinkRule] at this
      exact this.symm
    subst h99
    decide
  have h := unresolved_specific_total seedIsrList danglingLinkRule (by decide) (by decide) hd
  exact ⟨h.1, h.2.1, h.2.2.1 "99" rfl (by decide)⟩

/-- C7: creating a rule with an empty or missing `identifier` leaves the
rule catalog unchanged (silent rejection, no error), while a rule with a
non-empty identifier is appended at the end of the catalog; the ISR catalog
is untouched either way. -/
theorem addRule_identifier_guard (s : ConfigState) (n : NewRule) (now : Nat) :
    ((n.identifier = none ∨ n.identifier = some "") → addRule n now s = s) ∧
    (∀ ident, n.identifier = some ident → ident ≠ "" →
       (addRule n now s).isrList = s.isrList ∧
       ∃ r : ControlRule,
         (addRule n now s).controlRules = s.controlRules ++ [r] ∧
         r.identifier = ident ∧ r.mode = n.mode ∧ r.pattern = n.pattern ∧
         r.action = n.action ∧ r.targetScope = n.targetScope ∧
         r.linkedIsrId = n.linkedIsrId ∧ r.id = toString now) := by
  constructor
  · rintro (h | h) <;> simp [addRule, h]
  · intro ident hid hne
    refine ⟨by simp [addRule, hid, hne],
      { id := toString now, mode := n.mode, identifier := ident, pattern := n.pattern,
        argIndex := n.argIndex, matchValue := n.matchValue, regBitMode := n.regBitMode,
        regBitIndex := n.regBitIndex, regPolarity := n.regPolarity, action := n.action,
        targetScope := n.targetScope, linkedIsrId := n.linkedIsrId,
        targetDetail := computeFinalDetail n },
      by simp [addRule, hid, hne], rfl, rfl, rfl, rfl, rfl, rfl, rfl⟩

/-- Witness for C7 at the seed state: the empty identifier is rejected
without touching the catalog, the non-empty one is appended. -/
theorem addRule_identifier_guard_witness :
    (addRule { sampleNewRule with identifier := some "" } 300 seedState = seedState) ∧
    (addRule sampleNewRule 300 seedState).isrList = seedState.isrList ∧
    (addRule sampleNewRule 300 seedState).controlRules.length =
      seedState.controlRules.length + 1 := by
  have h1 := (addRule_identifier_guard seedState
    { sampleNewRule with identifier := some "" } 300).1 (Or.inr rfl)
  have h2 := (addRule_identifier_guard seedState sampleNewRule 300).2
    "disable_irq" rfl (by decide)
  obtain ⟨hisr, r, hr, _⟩ := h2
  exact ⟨h1, hisr, by rw [hr]; simp⟩

lemma step_preserves_nodup (s : ConfigState) (op : CatalogOp)
    (hi : (isrIds s).Nodup) (hr : (ruleIds s).Nodup) (hf : opFresh s op = true) :
    (isrIds (applyOp s op)).Nodup ∧ (ruleIds (applyOp s op)).Nodup := by
  cases op with
  | opAddISR n now =>
    have hni : toString now ∉ isrIds s := of_decide_eq_true hf
    cases hfn : n.functionName with
    | none => simpa [applyOp, addISR, hfn] using ⟨hi, hr⟩
    | some fn =>
      by_cases hemp : fn = ""
      · simpa [applyOp, addISR, hfn, hemp] using ⟨hi, hr⟩
      · constructor
        · have hforall : ∀ x ∈ s.isrList, ¬ x.id = toString now :=
            fun x hx hxe => hni (hxe ▸ List.mem_map_of_mem ISRConfig.id hx)
          simpa [applyOp, addISR, hfn, hemp, isrIds, List.nodup_append] using ⟨hi, hforall⟩
        · simpa [applyOp, addISR, hfn, hemp, ruleIds] using hr
  | opDeleteISR i =>
    constructor
    · exact ((List.filter_sublist _).map ISRConfig.id).nodup hi
    · have : ruleIds (deleteISR i s) = ruleIds s := by
        simp only [ruleIds, deleteISR, List.map_map]
        apply List.map_congr_left
        intro r _
        by_cases h : r.linkedIsrId = some i <;> simp [h]
      simpa [applyOp, this] using hr
  | opAddRule n now =>
    have hnr : toString now ∉ ruleIds s := of_decide_eq_true hf
    cases hid : n.identifier with
    | none => simpa [applyOp, addRule, hid] using ⟨hi, hr⟩
    | some ident =>
      by_cases hemp : ident = ""
      · simpa [applyOp, addRule, hid, hemp] using ⟨hi, hr⟩
      · constructor
        · simpa [applyOp, addRule, hid, hemp, isrIds] using hi
        · have hforall : ∀ x ∈ s.controlRules, ¬ x.id = toString now :=
            fun x hx hxe => hnr (hxe ▸ List.mem_map_of_mem ControlRule.id hx)
          simpa [applyOp, addRule, hid, hemp, ruleIds, List.nodup_append] using ⟨hr, hforall⟩
  | opDeleteRule i =>
    constructor
    · simpa [applyOp, deleteRule, isrIds] using hi
    · exact ((List.filter_sublist _).map ControlRule.id).nodup hr

lemma run_preserves_nodup (ops : List CatalogOp) : ∀ s : ConfigState,
    (isrIds s).Nodup → (ruleIds s).Nodup → freshTrace s ops = true →
    (isrIds (runOps s ops)).Nodup ∧ (ruleIds (runOps s ops)).Nodup := by
  induction ops with
  | nil => exact fun s hi hr _ => ⟨hi, hr⟩
  | cons op ops ih =>
    intro s hi hr hf
    rw [freshTrace, Bool.and_eq_true] at hf
    obtain ⟨hi2, hr2⟩ := step_preserves_nodup s op hi hr hf.1
    exact ih _ hi2 hr2 hf.2

/-- C8 (amended): starting from the built-in seed data, any sequence of add
and delete operations in which each add runs at a timestamp whose string is
not an id already present in the catalog it extends keeps ISR ids unique and
rule ids unique for the catalog lifetime. -/
theorem reachable_ids_unique (ops : List CatalogOp)
    (hfresh : freshTrace seedState ops = true) :
    ((runOps seedState ops).isrList.map ISRConfig.id).Nodup ∧
    ((runOps seedState ops).controlRules.map ControlRule.id).Nodup :=
  run_preserves_nodup ops seedState (by decide) (by decide) hfresh

/-- Witness for C8 (amended): a fresh two-add trace keeps ids unique. -/
theorem reachable_ids_unique_witness :
    ((runOps seedState [CatalogOp.opAddISR timerAddISR 100,
        CatalogOp.opAddISR timerAddISR 200]).isrList.map ISRConfig.id).Nodup ∧
    ((runOps seedState [CatalogOp.opAddISR timerAddISR 100,
        CatalogOp.opAddISR timerAddISR 200]).controlRules.map ControlRule.id).Nodup :=
  reachable_ids_unique [CatalogOp.opAddISR timerAddISR 100,
    CatalogOp.opAddISR timerAddISR 200] (by decide)

/-- C8 counterexample: two ISR adds performed in the same millisecond (the
id source is `Date.now().toString()`) yield two catalog entries both carrying
id "100", so id uniqueness fails in a reachable state. -/
theorem same_millisecond_ids_collide :
    ¬ (((runOps seedState [CatalogOp.opAddISR timerAddISR 100,
          CatalogOp.opAddISR timerAddISR 100]).isrList.map ISRConfig.id).Nodup) := by
  decide

/-- C9: `deleteRule` removes exactly the rules carrying the given id, keeps
every other rule entirely unchanged and in order, never touches the ISR
catalog, and is a no-op (raising no error) when the id is absent. -/
theorem deleteRule_frame (s : ConfigState) (ruleId : String) :
    (deleteRule ruleId s).isrList = s.isrList ∧
    List.Sublist (deleteRule ruleId s).controlRules s.controlRules ∧
    (∀ r : ControlRule, r ∈ (deleteRule ruleId s).controlRules ↔
        (r ∈ s.controlRules ∧ r.id ≠ ruleId)) ∧
    (ruleId ∉ ruleIds s → deleteRule ruleId s = s) := by
  refine ⟨rfl, List.filter_sublist _, ?_, ?_⟩
  · intro r
    simp [deleteRule, List.mem_filter]
  · intro habs
    have hfe : s.controlRules.filter (fun r => r.id ≠ ruleId) = s.controlRules := by
      rw [List.filter_eq_self]
      intro r hr
      have hmem : r.id ∈ ruleIds s := List.mem_map_of_mem ControlRule.id hr
      exact decide_eq_true (fun h => habs (h ▸ hmem))
    unfold deleteRule
    rw [hfe]

/-- Witness for C9 at the seed state: deleting the absent id "7" is a no-op
and deleting id "1" removes exactly the first seed rule. -/
theorem deleteRule_frame_witness :
    deleteRule "7" seedState = seedState ∧
    (deleteRule "1" seedState).isrList = seedState.isrList ∧
    ((seedRules.get ⟨0, by decide⟩) ∉ (deleteRule "1" seedState).controlRules ∧
     (seedRules.get ⟨1, by decide⟩) ∈ (deleteRule "1" seedState).controlRules) := by
  refine ⟨(deleteRule_frame seedState "7").2.2.2 (by decide),
    (deleteRule_frame seedState "1").1, ?_, ?_⟩
  · intro hmem
    have h := ((deleteRule_frame seedState "1").2.2.1 _).mp hmem
    exact h.2 (by decide)
  · exact ((deleteRule_frame seedState "1").2.2.1 _).mpr ⟨by decide, by decide⟩

/-- C10: adding an ISR whose `functionName` is missing or empty leaves the
state (both catalogs) unchanged — the add is silently rejected, mirroring
the rule-identifier guard. -/
theorem addISR_functionName_guard (s : ConfigState) (n : NewISR) (now : Nat)
    (h : n.functionName = none ∨ n.functionName = some "") :
    addISR n now s = s := by
  rcases h with h | h <;> simp [addISR, h]

/-- Witness for C10 at the seed state with an empty function name. -/
theorem addISR_functionName_guard_witness :
    addISR { functionName := some "" } 400 seedState = seedState :=
  addISR_functionName_guard seedState { functionName := some "" } 400 (Or.inr rfl)

end SpecCheckerInt
